import Mathlib

/-!
Shallow embedding of the ipytone front-end synchronization layer
(audio connection-graph reconciliation, parameter/signal bridge,
transport scheduler, event primitives) together with proofs about the
behaviour of the embedded code.

Each definition mirrors one function of the TypeScript sources; doc
comments name the source location. Engine-side (Tone.js) state is
modelled only as far as the widget code observes or mutates it.
-/

/- ========================================================================
   Connection graph manager (src/widget_graph.ts)
   ======================================================================== -/

/-- Engine-side node handle as observed by widget_graph.ts: whether it is a
native Web Audio node/param (AudioNode / AudioParam) and whether its
disposed flag is set. -/
structure EngineNode where
  native : Bool
  disposed : Bool
deriving DecidableEq, Repr

/-- Embeds isNative (widget_graph.ts line 14): obj instanceof AudioNode or
AudioParam. -/
def isNative (obj : EngineNode) : Bool :=
  obj.native

/-- Embeds isDisposed (widget_graph.ts lines 18-20):
not isNative(obj) and obj.disposed. -/
def isDisposed (obj : EngineNode) : Bool :=
  !isNative obj && obj.disposed

/-- One endpoint of a declared connection: the widget model id and the
engine node handle it wraps (model.node). -/
structure ConnEndpoint where
  model_id : String
  node : EngineNode
deriving DecidableEq, Repr

/-- Embeds the Connection 4-tuple of widget_graph.ts (lines 22-32):
source model, destination model, output index, input index. -/
structure Conn where
  src : ConnEndpoint
  dest : ConnEndpoint
  outputNum : Nat
  inputNum : Nat
deriving DecidableEq, Repr

/-- Embeds getConnectionId (widget_graph.ts lines 47-51): edge identity
string built from the two model ids and the two channel indices. -/
def getConnectionId (conn : Conn) : String :=
  conn.src.model_id ++ "::" ++ conn.dest.model_id ++ "::" ++
    toString conn.outputNum ++ "::" ++ toString conn.inputNum

/-- Embeds getConnectionIds (widget_graph.ts lines 53-57). -/
def getConnectionIds (connections : List Conn) : List String :=
  connections.map getConnectionId

/-- One engine-level side effect performed by updateConnections, in
order: a connect call, a disconnect call, or a destination model's
connectInputCallback invocation. -/
inductive GraphAction where
  | connect (srcId destId : String) (outputNum inputNum : Nat)
  | disconnect (srcId destId : String) (outputNum inputNum : Nat)
  | inputCallback (destId : String)
deriving DecidableEq, Repr

/-- Embeds the connAdded filter of updateConnections (widget_graph.ts
lines 78-82): current connections whose id is not among the ids of the
previous connections. -/
def connAdded (prev cur : List Conn) : List Conn :=
  cur.filter (fun other => !((getConnectionIds prev).contains (getConnectionId other)))

/-- Embeds the connRemoved filter of updateConnections (widget_graph.ts
lines 89-93) exactly as written there: the source computes current_ids
from this.connections_prev (not from this.connections), so the previous
list is filtered against its own ids and the current list is never
consulted. -/
def connRemoved (prev : List Conn) : List Conn :=
  prev.filter (fun other => !((getConnectionIds prev).contains (getConnectionId other)))

/-- Embeds the disposal check guarding each disconnect call
(widget_graph.ts line 100): not isDisposed(src) or not isDisposed(dest). -/
def disconnectGuard (src dest : EngineNode) : Bool :=
  !isDisposed src || !isDisposed dest

/-- Embeds AudioGraphModel.updateConnections (widget_graph.ts lines
76-111) as the ordered trace of engine-level actions it performs: first
the connect calls for connAdded, then the guarded disconnect calls for
connRemoved, then connectInputCallback on the destination of every edge
of connAdded concat connRemoved. -/
def updateConnections (prev cur : List Conn) : List GraphAction :=
  let added := connAdded prev cur
  let removed := connRemoved prev
  (added.map fun c => GraphAction.connect c.src.model_id c.dest.model_id c.outputNum c.inputNum)
    ++ ((removed.filter fun c => disconnectGuard c.src.node c.dest.node).map
          fun c => GraphAction.disconnect c.src.model_id c.dest.model_id c.outputNum c.inputNum)
    ++ ((added ++ removed).map fun c => GraphAction.inputCallback c.dest.model_id)

/-- Spec-side definition, following the specification's words (section
4.4, step 1): removed = previous_set minus declared_set, membership by
edge identity. Used to compare the code's connRemoved against the spec. -/
def specRemoved (prev cur : List Conn) : List Conn :=
  prev.filter (fun other => !((getConnectionIds cur).contains (getConnectionId other)))

/-- Recognizer for disconnect actions in a trace. -/
def isDisconnectAction : GraphAction → Bool
  | GraphAction.disconnect _ _ _ _ => true
  | _ => false

/-- Recognizer for connectInputCallback actions in a trace. -/
def isCallbackAction : GraphAction → Bool
  | GraphAction.inputCallback _ => true
  | _ => false

/-- Number of connectInputCallback invocations a trace performs on the
destination with the given model id. -/
def callbackCount (trace : List GraphAction) (destId : String) : Nat :=
  (trace.filter fun a =>
    match a with
    | GraphAction.inputCallback d => d == destId
    | _ => false).length

/-- Helper: every edge of the previous list has its id among the ids of
the previous list, so the code's connRemoved filter keeps nothing. -/
theorem connRemoved_eq_nil (prev : List Conn) : connRemoved prev = [] := by
  apply List.filter_eq_nil_iff.mpr
  intro a ha
  have hmem : getConnectionId a ∈ getConnectionIds prev :=
    List.mem_map_of_mem getConnectionId ha
  simp [getConnectionIds] at hmem ⊢
  exact hmem

/-- Helper: a concrete live (non-native, non-disposed) engine node. -/
def liveNode : EngineNode := { native := false, disposed := false }

/-- Concrete edge used as the failing input for claim C1: oscillator a
connected to gain b, both endpoints live, default channel indices. -/
def c1Edge : Conn :=
  { src := { model_id := "a", node := liveNode }
  , dest := { model_id := "b", node := liveNode }
  , outputNum := 0, inputNum := 0 }

/-- Helper: filtering a mapped list commutes with filtering the original
list when the predicate factors through the map. -/
theorem filter_map_comm {α β : Type} (p : β → Bool) (q : α → Bool) (f : α → β)
    (h : ∀ x, p (f x) = q x) (l : List α) :
    (l.map f).filter p = (l.filter q).map f := by
  induction l with
  | nil => rfl
  | cons a t ih =>
    by_cases hqa : q a = true
    · simp [List.filter_cons, h a, hqa, ih]
    · have hfa : q a = false := by simpa using hqa
      simp [List.filter_cons, h a, hfa, ih]

/-- Helper: a filter that rejects every image of a map returns nothing. -/
theorem filter_map_const_false {α β : Type} (p : β → Bool) (f : α → β)
    (h : ∀ x, p (f x) = false) (l : List α) : (l.map f).filter p = [] := by
  rw [filter_map_comm p (fun _ => false) f h l]
  simp

/-- Claim C1: the code's removed set is computed by filtering the
previous connection list against its own ids (widget_graph.ts line 91
reads this.connections_prev where the current list is needed), so no
reconciliation cycle ever issues a disconnect; in particular on the
failing input where the single declared edge c1Edge is removed, the spec
demands exactly one disconnect (specRemoved keeps the edge) but the
embedded updateConnections performs no action at all. -/
theorem updateConnections_removed_diff_dead :
    (∀ prev cur, (updateConnections prev cur).filter isDisconnectAction = []) ∧
    specRemoved [c1Edge] [] = [c1Edge] ∧
    updateConnections [c1Edge] [] = [] := by
  refine ⟨fun prev cur => ?_, by rfl, by rfl⟩
  simp only [updateConnections, connRemoved_eq_nil, List.filter_nil, List.map_nil,
    List.append_nil, List.nil_append, List.filter_append]
  rw [filter_map_const_false _ _ (fun c => rfl), filter_map_const_false _ _ (fun c => rfl)]
  simp

/-- Concrete added edges for claim C2: two distinct declared edges (they
differ in input index) sharing the same destination model b. -/
def c2EdgeA : Conn :=
  { src := { model_id := "a", node := liveNode }
  , dest := { model_id := "b", node := liveNode }
  , outputNum := 0, inputNum := 0 }

/-- Second edge of the C2 counterexample, same destination b. -/
def c2EdgeB : Conn :=
  { src := { model_id := "a", node := liveNode }
  , dest := { model_id := "b", node := liveNode }
  , outputNum := 0, inputNum := 1 }

/-- Claim C2 (counterexample): declaring the two edges c2EdgeA and
c2EdgeB (same destination b) in one update invokes the destination
callback of b twice in that cycle, not exactly once: the code iterates
connAdded concat connRemoved without deduplicating destinations. -/
theorem updateConnections_callback_not_deduplicated :
    callbackCount (updateConnections [] [c2EdgeA, c2EdgeB]) "b" = 2 ∧
    callbackCount (updateConnections [] [c2EdgeA, c2EdgeB]) "b" ≠ 1 := by
  constructor
  · rfl
  · decide

/-- Claim C2 (amended): in every reconciliation cycle each destination
receives one connectInputCallback invocation per edge of the cycle's
added and removed lists that targets it (not deduplicated), and all of
these callbacks run only after every connect and disconnect call of the
cycle. -/
theorem updateConnections_callbacks_per_edge :
    ∀ prev cur destId,
      callbackCount (updateConnections prev cur) destId =
        ((connAdded prev cur ++ connRemoved prev).filter
            (fun c => c.dest.model_id == destId)).length ∧
      ∃ k, (∀ a ∈ (updateConnections prev cur).take k, isCallbackAction a = false) ∧
           (∀ a ∈ (updateConnections prev cur).drop k, isCallbackAction a = true) := by
  intro prev cur destId
  constructor
  · simp only [callbackCount, updateConnections, List.filter_append]
    rw [filter_map_const_false _ _ (fun c => rfl), filter_map_const_false _ _ (fun c => rfl),
        filter_map_comm _ (fun c => c.dest.model_id == destId) _ (fun c => rfl)]
    simp
  · have hrw : updateConnections prev cur =
        ((connAdded prev cur).map fun c =>
            GraphAction.connect c.src.model_id c.dest.model_id c.outputNum c.inputNum)
          ++ ((connAdded prev cur).map fun c => GraphAction.inputCallback c.dest.model_id) := by
      simp [updateConnections, connRemoved_eq_nil]
    refine ⟨((connAdded prev cur).map fun c =>
      GraphAction.connect c.src.model_id c.dest.model_id c.outputNum c.inputNum).length, ?_, ?_⟩
    · rw [hrw, List.take_left]
      intro a ha
      obtain ⟨c, _, rfl⟩ := List.mem_map.mp ha
      rfl
    · rw [hrw, List.drop_left]
      intro a ha
      obtain ⟨c, _, rfl⟩ := List.mem_map.mp ha
      rfl

/-- Helper: a concrete disposed (non-native) engine node. -/
def disposedNode : EngineNode := { native := false, disposed := true }

/-- Concrete removed edge for claim C3: both endpoints live, so the
claim requires its removal to issue a disconnect. -/
def c3Edge : Conn :=
  { src := { model_id := "a", node := liveNode }
  , dest := { model_id := "b", node := liveNode }
  , outputNum := 0, inputNum := 0 }

/-- Claim C3: the code diverges from the disconnect-iff-neither-disposed
rule in both directions. The guard of widget_graph.ts line 100 is an OR
(not isDisposed src or not isDisposed dest), so it would let a
disconnect through for a removed edge whose source alone is disposed,
which the claim and the code's own comment require skipping; and since
the removed set is computed against the previous list itself, a removed
edge with two live endpoints (c3Edge) triggers no disconnect at all. -/
theorem updateConnections_disposed_skip_violated :
    disconnectGuard disposedNode liveNode = true ∧
    updateConnections [c3Edge] [] = [] := by
  constructor
  · rfl
  · rfl

/- ========================================================================
   Parameter/Signal bridge (src/widget_core.ts, src/widget_signal.ts)
   ======================================================================== -/

/-- Engine-side tone.Param / tone.Signal handle as observed by the
bridge: its live overridden flag, its live current value, and its
disposed flag. Values are modelled as rationals. -/
structure ToneParamNode where
  overridden : Bool
  value : ℚ
  disposed : Bool
deriving DecidableEq, Repr

/-- Declared attributes of a ParamModel that the bridge synchronizes. -/
structure ParamAttrs where
  overridden : Bool
  value : ℚ
deriving DecidableEq, Repr

/-- State of a ParamModel: its local declared attributes and the
attribute values last pushed to the remote side (save_changes). -/
structure ParamModelState where
  attrs : ParamAttrs
  remote : ParamAttrs
deriving DecidableEq, Repr

/-- Embeds ParamModel.connectInputCallback (widget_core.ts lines
407-412): set overridden from the live node, set value from the live
node, then save_changes pushes the attributes to the remote side. -/
def ParamModel.connectInputCallback (node : ToneParamNode) (st : ParamModelState) :
    ParamModelState :=
  let a1 := { st.attrs with overridden := node.overridden }
  let a2 := { a1 with value := node.value }
  { attrs := a2, remote := a2 }

/-- State of a SignalModel: the ParamModel wrapped as its input (which
holds the declared overridden flag), the signal's own declared value
attribute, and the value last pushed to the remote side. -/
structure SignalModelState where
  input : ParamModelState
  value : ℚ
  remoteValue : ℚ
deriving DecidableEq, Repr

/-- Embeds SignalModel.updateOverridden (widget_signal.ts lines 61-68):
set the input param's overridden and value from the live node and push
them, then set the signal's own value attribute and push it. -/
def SignalModel.updateOverridden (node : ToneParamNode) (st : SignalModelState) :
    SignalModelState :=
  let ia1 := { st.input.attrs with overridden := node.overridden }
  let ia2 := { ia1 with value := node.value }
  { input := { attrs := ia2, remote := ia2 }
  , value := node.value
  , remoteValue := node.value }

/-- Embeds SignalModel.connectInputCallback (widget_signal.ts lines
70-73): a newly connected incoming signal overrides this signal's value,
so it delegates to updateOverridden. -/
def SignalModel.connectInputCallback (node : ToneParamNode) (st : SignalModelState) :
    SignalModelState :=
  SignalModel.updateOverridden node st

/-- Claim C4: after the post-topology callback of a Parameter (and of a
Signal), the declared overridden attribute equals the live overridden
flag, the declared value attribute equals the live current value, and
both have been pushed to the remote side. -/
theorem connectInputCallback_rereads_live_state :
    ∀ node pst sst,
      ((ParamModel.connectInputCallback node pst).attrs.overridden = node.overridden ∧
       (ParamModel.connectInputCallback node pst).attrs.value = node.value ∧
       (ParamModel.connectInputCallback node pst).remote =
         (ParamModel.connectInputCallback node pst).attrs) ∧
      ((SignalModel.connectInputCallback node sst).input.attrs.overridden = node.overridden ∧
       (SignalModel.connectInputCallback node sst).input.attrs.value = node.value ∧
       (SignalModel.connectInputCallback node sst).input.remote =
         (SignalModel.connectInputCallback node sst).input.attrs ∧
       (SignalModel.connectInputCallback node sst).value = node.value ∧
       (SignalModel.connectInputCallback node sst).remoteValue = node.value) := by
  intro node pst sst
  exact ⟨⟨rfl, rfl, rfl⟩, ⟨rfl, rfl, rfl, rfl, rfl⟩⟩

/- ========================================================================
   Node disposal (widget_base.ts / AudioNodeModel, widget_core.ts / ParamModel)
   ======================================================================== -/

/-- Engine-side processing unit as observed by dispose: only its
disposed flag matters. -/
structure ToneUnit where
  disposed : Bool
deriving DecidableEq, Repr

/-- Engine dispose call on a live unit: marks the unit disposed
(Tone.js dispose sets the disposed flag of the unit). -/
def ToneUnit.disposeUnit (_u : ToneUnit) : ToneUnit :=
  { disposed := true }

/-- State of a node model during disposal: the wrapped live unit and a
counter of engine dispose calls the model has issued. -/
structure NodeDisposeState where
  node : ToneUnit
  engineDisposeCalls : Nat
deriving DecidableEq, Repr

/-- Embeds AudioNodeModel.dispose (widget_base.ts, lines 126-132 of the
base module): if the node is not already disposed (Tone.js may have
cascaded disposal internally), call the engine dispose; otherwise do
nothing. -/
def AudioNodeModel.dispose (st : NodeDisposeState) : NodeDisposeState :=
  if !st.node.disposed then
    { node := st.node.disposeUnit, engineDisposeCalls := st.engineDisposeCalls + 1 }
  else
    st

/-- Embeds ParamModel.dispose (widget_core.ts lines 414-420): identical
guard on the wrapped tone.Param's disposed flag. -/
def ParamModel.dispose (st : NodeDisposeState) : NodeDisposeState :=
  if !st.node.disposed then
    { node := st.node.disposeUnit, engineDisposeCalls := st.engineDisposeCalls + 1 }
  else
    st

/-- Helper: a dispose call always leaves the unit's disposed flag set. -/
theorem audioNodeDispose_disposed (st : NodeDisposeState) :
    (AudioNodeModel.dispose st).node.disposed = true := by
  by_cases h : st.node.disposed <;>
    simp [AudioNodeModel.dispose, ToneUnit.disposeUnit, h]

/-- Helper: dispose on an already-disposed state changes nothing. -/
theorem audioNodeDispose_fixed (st : NodeDisposeState) (h : st.node.disposed = true) :
    AudioNodeModel.dispose st = st := by
  simp [AudioNodeModel.dispose, h]

/-- Helper: disposing twice is the same as disposing once. -/
theorem audioNodeDispose_dispose (st : NodeDisposeState) :
    AudioNodeModel.dispose (AudioNodeModel.dispose st) = AudioNodeModel.dispose st :=
  audioNodeDispose_fixed _ (audioNodeDispose_disposed st)

/-- Helper: ParamModel.dispose always leaves the unit disposed. -/
theorem paramDispose_disposed (st : NodeDisposeState) :
    (ParamModel.dispose st).node.disposed = true := by
  by_cases h : st.node.disposed <;>
    simp [ParamModel.dispose, ToneUnit.disposeUnit, h]

/-- Helper: ParamModel.dispose on an already-disposed state changes nothing. -/
theorem paramDispose_fixed (st : NodeDisposeState) (h : st.node.disposed = true) :
    ParamModel.dispose st = st := by
  simp [ParamModel.dispose, h]

/-- Helper: ParamModel.dispose twice is the same as once. -/
theorem paramDispose_dispose (st : NodeDisposeState) :
    ParamModel.dispose (ParamModel.dispose st) = ParamModel.dispose st :=
  paramDispose_fixed _ (paramDispose_disposed st)

/-- Claim C8: dispose is idempotent for both node models. When the live
unit is already disposed, dispose performs no engine dispose call and
returns the state unchanged (in particular it is total, so it cannot
throw); any number of extra dispose calls equals a single one; and after
at least one call the node is in the disposed state. -/
theorem node_dispose_idempotent :
    (∀ st, st.node.disposed = true →
        AudioNodeModel.dispose st = st ∧ ParamModel.dispose st = st) ∧
    (∀ st n, AudioNodeModel.dispose^[n + 1] st = AudioNodeModel.dispose st) ∧
    (∀ st n, (AudioNodeModel.dispose^[n + 1] st).node.disposed = true) ∧
    (∀ st n, ParamModel.dispose^[n + 1] st = ParamModel.dispose st) ∧
    (∀ st n, (ParamModel.dispose^[n + 1] st).node.disposed = true) := by
  have hiterA : ∀ st n, AudioNodeModel.dispose^[n + 1] st = AudioNodeModel.dispose st := by
    intro st n
    induction n with
    | zero => rfl
    | succ m ih =>
      rw [Function.iterate_succ_apply', ih, audioNodeDispose_dispose]
  have hiterP : ∀ st n, ParamModel.dispose^[n + 1] st = ParamModel.dispose st := by
    intro st n
    induction n with
    | zero => rfl
    | succ m ih =>
      rw [Function.iterate_succ_apply', ih, paramDispose_dispose]
  refine ⟨fun st h => ⟨?_, ?_⟩, hiterA, fun st n => ?_, hiterP, fun st n => ?_⟩
  · simp [AudioNodeModel.dispose, h]
  · simp [ParamModel.dispose, h]
  · rw [hiterA]
    exact audioNodeDispose_disposed st
  · rw [hiterP]
    exact paramDispose_disposed st

/-- Claim C8 witness: on a concrete state whose unit is already
disposed, dispose leaves the state unchanged. -/
theorem node_dispose_idempotent_witness :
    AudioNodeModel.dispose { node := { disposed := true }, engineDisposeCalls := 1 } =
      { node := { disposed := true }, engineDisposeCalls := 1 } :=
  (node_dispose_idempotent.1 { node := { disposed := true }, engineDisposeCalls := 1 } rfl).1

/- ========================================================================
   Meter/analysis reads (src/widget_channel.ts, BaseMeterModel)
   ======================================================================== -/

/-- Numeric component of a meter read: either the JavaScript value
-Infinity (an inactive signal in decibel space) or a finite number. -/
inductive JsNum where
  | negInf
  | num (q : ℚ)
deriving DecidableEq, Repr

/-- Fixed finite sentinel -1e20 used at the remote boundary. -/
def sentinel : ℚ := -(10 ^ 20)

/-- Component translation performed on the two elements of a stereo
meter read (widget_channel.ts lines 358-359): -Infinity becomes the
sentinel, anything else is kept. -/
def sanitizeComponent (x : JsNum) : JsNum :=
  match x with
  | JsNum.negInf => JsNum.num sentinel
  | y => y

/-- Shape of the value returned by the engine meter node: a scalar or an
array of channel values. -/
inductive MeterValue where
  | scalar (x : JsNum)
  | array (xs : List JsNum)
deriving DecidableEq, Repr

/-- Embeds BaseMeterModel.getValue (widget_channel.ts lines 343-363):
a scalar value strictly equal to -Infinity becomes -1e20; otherwise if
the value is an array of length exactly 2 its elements 0 and 1 are each
translated (mapping sanitizeComponent over a 2-element list); any other
value is returned unchanged. -/
def BaseMeterModel.getValue (value : MeterValue) : MeterValue :=
  match value with
  | MeterValue.scalar JsNum.negInf => MeterValue.scalar (JsNum.num sentinel)
  | MeterValue.scalar x => MeterValue.scalar x
  | MeterValue.array xs =>
      if xs.length == 2 then
        MeterValue.array (xs.map sanitizeComponent)
      else
        MeterValue.array xs

/-- Concrete failing read for claim C6: a three-channel array read whose
first component is -Infinity. -/
def c6ArrayInput : MeterValue :=
  MeterValue.array [JsNum.negInf, JsNum.num 0, JsNum.num 0]

/-- Claim C6 (counterexample): a three-element array read containing
-Infinity is surfaced unchanged — the -Infinity component is not
translated to the sentinel, because the code only rewrites arrays of
length exactly 2. -/
theorem meter_negInf_not_always_translated :
    BaseMeterModel.getValue c6ArrayInput = c6ArrayInput ∧
    BaseMeterModel.getValue c6ArrayInput ≠
      MeterValue.array [JsNum.num sentinel, JsNum.num 0, JsNum.num 0] := by
  constructor
  · rfl
  · decide

/-- Claim C6 (amended): on meter reads, a scalar -Infinity is translated
to the sentinel -1e20 and finite scalars pass through; an array read is
translated component-wise exactly when it has length 2; arrays of any
other length are surfaced unchanged. -/
theorem meter_sentinel_translation_scoped :
    (BaseMeterModel.getValue (MeterValue.scalar JsNum.negInf) =
        MeterValue.scalar (JsNum.num sentinel)) ∧
    (∀ x : ℚ, BaseMeterModel.getValue (MeterValue.scalar (JsNum.num x)) =
        MeterValue.scalar (JsNum.num x)) ∧
    (∀ a b, BaseMeterModel.getValue (MeterValue.array [a, b]) =
        MeterValue.array [sanitizeComponent a, sanitizeComponent b]) ∧
    (∀ xs, xs.length ≠ 2 →
        BaseMeterModel.getValue (MeterValue.array xs) = MeterValue.array xs) := by
  refine ⟨rfl, fun x => rfl, fun a b => rfl, fun xs h => ?_⟩
  have hfalse : (xs.length == 2) = false := by simpa using h
  simp [BaseMeterModel.getValue, hfalse]

/-- Claim C6 witness: a one-element array read keeps its -Infinity
component unchanged. -/
theorem meter_sentinel_translation_scoped_witness :
    BaseMeterModel.getValue (MeterValue.array [JsNum.negInf]) =
      MeterValue.array [JsNum.negInf] :=
  meter_sentinel_translation_scoped.2.2.2 [JsNum.negInf] (by decide)

/- ========================================================================
   Transport scheduler (src/widget_transport.ts)
   ======================================================================== -/

/-- Engine transport clock fields read and written by the widget. Each
field is modelled as its own cell so that the embedding records exactly
which field a handler writes. -/
structure ToneTransportState where
  position : ℚ
  seconds : ℚ
  progress : ℚ
  ticks : ℚ
deriving DecidableEq, Repr

/-- Observable transport attributes mirrored to the remote side. -/
structure TransportAttrs where
  position : ℚ
  seconds : ℚ
  progress : ℚ
  ticks : ℚ
deriving DecidableEq, Repr

/-- Embeds TransportModel.syncPosition (widget_transport.ts lines
119-125): re-read position, seconds, progress and ticks from the engine
transport and push them (save_changes). -/
def TransportModel.syncPosition (engine : ToneTransportState) : TransportAttrs :=
  { position := engine.position
  , seconds := engine.seconds
  , progress := engine.progress
  , ticks := engine.ticks }

/-- Embeds the change:position listener (widget_transport.ts lines
186-189): assign the new value to the engine transport's position field,
then syncPosition. Returns the engine state and the pushed attributes. -/
def TransportModel.onChangePosition (engine : ToneTransportState) (v : ℚ) :
    ToneTransportState × TransportAttrs :=
  let e2 := { engine with position := v }
  (e2, TransportModel.syncPosition e2)

/-- Embeds the change:seconds listener (widget_transport.ts lines
190-193): assign the new value to the engine transport's seconds field,
then syncPosition. -/
def TransportModel.onChangeSeconds (engine : ToneTransportState) (v : ℚ) :
    ToneTransportState × TransportAttrs :=
  let e2 := { engine with seconds := v }
  (e2, TransportModel.syncPosition e2)

/-- Embeds the change:ticks listener (widget_transport.ts lines
194-197) exactly as written there: the source assigns the new ticks
value to tone.Transport.position (not to tone.Transport.ticks), then
calls syncPosition. -/
def TransportModel.onChangeTicks (engine : ToneTransportState) (v : ℚ) :
    ToneTransportState × TransportAttrs :=
  let e2 := { engine with position := v }
  (e2, TransportModel.syncPosition e2)

/-- Embeds TransportModel.play (widget_transport.ts lines 127-131): the
transition command (start/stop/pause) is forwarded to the engine
transport (here an opaque engine-state transformer), then syncPosition
re-reads the clock. -/
def TransportModel.play (method : ToneTransportState → ToneTransportState)
    (engine : ToneTransportState) : ToneTransportState × TransportAttrs :=
  let e2 := method engine
  (e2, TransportModel.syncPosition e2)

/-- Claim C5: evaluated at the failing input (engine clock at position 1,
seconds 2, progress 3, ticks 4; the remote side sets the ticks attribute
to 8), the change:ticks handler writes 8 into the engine's position
field and leaves the engine's ticks field at 4, so the attributes pushed
back report ticks 4 and position 8 — the mutation was not forwarded to
the ticks field. The transition and position/seconds paths do re-read
all four attributes after forwarding. -/
theorem transport_ticks_mutation_misdirected :
    (TransportModel.onChangeTicks { position := 1, seconds := 2, progress := 3, ticks := 4 } 8).1 =
      { position := 8, seconds := 2, progress := 3, ticks := 4 } ∧
    (TransportModel.onChangeTicks { position := 1, seconds := 2, progress := 3, ticks := 4 } 8).2.ticks = 4 ∧
    (TransportModel.onChangeTicks { position := 1, seconds := 2, progress := 3, ticks := 4 } 8).2.ticks ≠ 8 := by
  refine ⟨rfl, rfl, by decide⟩

/-- Association list from externally-visible (python-side) event ids to
internal engine event handles: the py2jsEventID table of TransportModel. -/
def lookupEventId (tbl : List (Nat × Nat)) (pyEventID : Nat) : Option Nat :=
  (tbl.find? (fun p => p.1 == pyEventID)).map (fun p => p.2)

/-- Modelled from the spec: the guard of the clear operation on the
declaring side of the repository (its Python half, which is not among
the TypeScript sources; the TS clearEvent of widget_transport.ts lines
133-136 merely forwards the mapped handle to the engine). Per the spec's
failure semantics, referencing an event id not present in the id-mapping
table on clear raises rather than silently no-opping; a known id has its
engine handle cleared and its table entry deleted. -/
def TransportModel.clearEventChecked (tbl : List (Nat × Nat)) (pyEventID : Nat) :
    Except String (Nat × List (Nat × Nat)) :=
  match lookupEventId tbl pyEventID with
  | none => Except.error "unknown scheduled event id"
  | some jsId => Except.ok (jsId, tbl.filter (fun p => !(p.1 == pyEventID)))

/-- Claim C9: a clear command whose external event id has no entry in
the id-mapping table throws instead of silently doing nothing. -/
theorem clear_unknown_event_id_raises :
    ∀ tbl pyEventID, lookupEventId tbl pyEventID = none →
      ∃ msg, TransportModel.clearEventChecked tbl pyEventID = Except.error msg := by
  intro tbl pyEventID h
  exact ⟨"unknown scheduled event id", by simp [TransportModel.clearEventChecked, h]⟩

/-- Claim C9 witness: clearing id 5 against an empty table raises. -/
theorem clear_unknown_event_id_raises_witness :
    ∃ msg, TransportModel.clearEventChecked [] 5 = Except.error msg :=
  clear_unknown_event_id_raises [] 5 rfl

/-- Value of the duration field of a schedule command as delivered from
the remote side: absent, null, or a number. -/
inductive JsDuration where
  | undef
  | nullv
  | num (q : ℚ)
deriving DecidableEq, Repr

/-- JavaScript truthiness of the duration field: absent and null are
falsy, a number is falsy exactly when it is 0. -/
def JsDuration.truthy : JsDuration → Bool
  | JsDuration.num q => !(q == 0)
  | _ => false

/-- Duration handed to the engine's scheduleRepeat: a finite value or
Infinity. -/
inductive EngineDuration where
  | finite (q : ℚ)
  | inf
deriving DecidableEq, Repr

/-- Coercion of a truthy duration field to the engine duration. -/
def JsDuration.toEngine : JsDuration → EngineDuration
  | JsDuration.num q => EngineDuration.finite q
  | _ => EngineDuration.inf

/-- Engine registration produced by one schedule command: which
scheduling operation of the engine transport is invoked and with which
timing arguments. -/
inductive Registration where
  | plain (time : ℚ)
  | repeatReg (interval : ℚ) (startTime : ℚ) (duration : EngineDuration)
  | once (time : ℚ)
  | nothing
deriving DecidableEq, Repr

/-- Fields of a schedule command message (event: schedule) used by
TransportModel.schedule. -/
structure ScheduleCmd where
  op : String
  time : ℚ
  interval : ℚ
  start_time : ℚ
  duration : JsDuration
deriving DecidableEq, Repr

/-- Embeds TransportModel.schedule (widget_transport.ts lines 86-117 and
its later revision lines 120-141 of the transport module): op empty
registers a plain schedule at the command time; op repeat computes
duration as command.duration if truthy else Infinity and registers
scheduleRepeat with the command interval and start time; op once
registers scheduleOnce; any other op registers nothing. -/
def TransportModel.schedule (command : ScheduleCmd) : Registration :=
  if command.op == "" then
    Registration.plain command.time
  else if command.op == "repeat" then
    let duration := if command.duration.truthy then command.duration.toEngine
                    else EngineDuration.inf
    Registration.repeatReg command.interval command.start_time duration
  else if command.op == "once" then
    Registration.once command.time
  else
    Registration.nothing

/-- Claim C10: for a repeat schedule command, a duration field of 0 is
treated exactly like an absent or null duration — the engine
scheduleRepeat is registered with duration Infinity — while the declared
interval and start time are passed through unchanged. -/
theorem schedule_repeat_zero_duration_unbounded :
    ∀ t i s : ℚ,
      TransportModel.schedule
          { op := "repeat", time := t, interval := i, start_time := s
          , duration := JsDuration.num 0 } =
        TransportModel.schedule
          { op := "repeat", time := t, interval := i, start_time := s
          , duration := JsDuration.nullv } ∧
      TransportModel.schedule
          { op := "repeat", time := t, interval := i, start_time := s
          , duration := JsDuration.num 0 } =
        TransportModel.schedule
          { op := "repeat", time := t, interval := i, start_time := s
          , duration := JsDuration.undef } ∧
      TransportModel.schedule
          { op := "repeat", time := t, interval := i, start_time := s
          , duration := JsDuration.num 0 } =
        Registration.repeatReg i s EngineDuration.inf := by
  intro t i s
  exact ⟨rfl, rfl, rfl⟩

/- ========================================================================
   Part / Sequence event collections (widget_event.ts module:
   PartModel.handleMsg, SequenceModel.handleMsg)
   ======================================================================== -/

/-- Engine-side tone.Part event collection, modelled as the list of its
(time, value) events. tone.Part belongs to the external engine, so its
operations are modelled after its documented behaviour: add appends an
event, at updates the value of the first event at a time or inserts one,
remove deletes the events matching a time (and value, when given), clear
empties the collection; length is the number of contained events. -/
structure TonePart where
  events : List (ℚ × ℤ)
deriving DecidableEq, Repr

/-- Number of events in the collection (tone.Part.length). -/
def TonePart.length (p : TonePart) : Nat :=
  p.events.length

/-- Engine add: append an event. -/
def TonePart.add (p : TonePart) (t : ℚ) (v : ℤ) : TonePart :=
  { events := p.events ++ [(t, v)] }

/-- Engine at: update the first event at time t, or insert one. -/
def TonePart.atTime (p : TonePart) (t : ℚ) (v : ℤ) : TonePart :=
  if p.events.any (fun e => e.1 == t) then
    { events := p.events.map (fun e => if e.1 == t then (t, v) else e) }
  else
    { events := p.events ++ [(t, v)] }

/-- Engine remove: delete the events at time t, restricted to a value
when one is supplied. -/
def TonePart.removeEvent (p : TonePart) (t : ℚ) (v : Option ℤ) : TonePart :=
  { events := p.events.filter (fun e =>
      !(e.1 == t && (match v with
        | none => true
        | some w => e.2 == w))) }

/-- Engine clear: remove every event. -/
def TonePart.clearEvents (_p : TonePart) : TonePart :=
  { events := [] }

/-- Mutation commands handled by PartModel.handleMsg: add, at, remove
(the source collapses its two remove branches into a removal keyed by
time and optional value), clear, and any other command (set_callback,
play, cancel from the base class), which leaves the collection alone. -/
inductive PartCmd where
  | add (t : ℚ) (v : ℤ)
  | atCmd (t : ℚ) (v : ℤ)
  | removeCmd (t : ℚ) (v : Option ℤ)
  | clearCmd
  | other
deriving DecidableEq, Repr

/-- State of a PartModel: the engine collection, the declared length
attribute and the length last pushed to the remote side. -/
structure PartModelState where
  event : TonePart
  lengthAttr : Nat
  remoteLength : Nat
deriving DecidableEq, Repr

/-- Embeds PartModel.handleMsg (widget_event.ts module, lines 243-268):
dispatch the mutation commands to the engine collection, then
unconditionally set the length attribute to the collection's length and
push it (save_changes). -/
def PartModel.handleMsg (st : PartModelState) (command : PartCmd) : PartModelState :=
  let ev := match command with
    | PartCmd.add t v => st.event.add t v
    | PartCmd.atCmd t v => st.event.atTime t v
    | PartCmd.removeCmd t v => st.event.removeEvent t v
    | PartCmd.clearCmd => st.event.clearEvents
    | PartCmd.other => st.event
  { event := ev, lengthAttr := ev.length, remoteLength := ev.length }

/-- Commands handled by SequenceModel.handleMsg: clear, or any other
command of the base class. -/
inductive SeqCmd where
  | clearCmd
  | other
deriving DecidableEq, Repr

/-- State of a SequenceModel: the engine sequence's event collection and
the declared/pushed length, as for PartModel. -/
structure SequenceModelState where
  event : TonePart
  lengthAttr : Nat
  remoteLength : Nat
deriving DecidableEq, Repr

/-- Embeds SequenceModel.handleMsg (widget_event.ts module, lines
315-325): clear empties the engine sequence; afterwards the length
attribute is unconditionally set to the collection's length and pushed. -/
def SequenceModel.handleMsg (st : SequenceModelState) (command : SeqCmd) : SequenceModelState :=
  let ev := match command with
    | SeqCmd.clearCmd => st.event.clearEvents
    | SeqCmd.other => st.event
  { event := ev, lengthAttr := ev.length, remoteLength := ev.length }

/-- Claim C7: after every Part or Sequence command (add, at, remove,
clear, or any other message), the declared length attribute and the
value pushed to the remote side both equal the number of events actually
contained in the collection. -/
theorem part_sequence_length_in_sync :
    ∀ pst (pcmd : PartCmd) sst (scmd : SeqCmd),
      ((PartModel.handleMsg pst pcmd).lengthAttr =
          (PartModel.handleMsg pst pcmd).event.events.length ∧
       (PartModel.handleMsg pst pcmd).remoteLength =
          (PartModel.handleMsg pst pcmd).event.events.length) ∧
      ((SequenceModel.handleMsg sst scmd).lengthAttr =
          (SequenceModel.handleMsg sst scmd).event.events.length ∧
       (SequenceModel.handleMsg sst scmd).remoteLength =
          (SequenceModel.handleMsg sst scmd).event.events.length) := by
  intro pst pcmd sst scmd
  exact ⟨⟨rfl, rfl⟩, ⟨rfl, rfl⟩⟩
